import Mathlib

/-!
Verification of the contact-tier classification core of the
`whatsapp_auto_agent` repository.

The Python sources embedded here are `src/core/contact_tier_manager.py`
(the `ContactTierManager` class: tier resolution, settings lookup, the
contact-info cache, the mutation API, template lookup and tier statistics)
and `src/utils/helpers.py` (`sanitize_phone_number`).

Python strings are modelled as `List Char`; Python dictionaries holding
dynamic keys (the contact-info cache and the per-tier template tables) are
modelled as association lists with first-match lookup, insert-or-replace
assignment and single-key deletion, matching `dict` semantics under the
unique-key invariant that `dict` guarantees.  The JSON configuration
objects, whose schema fixes the three tier keys (`main_contacts`,
`time_pass_contacts`, `not_important`), are modelled as records whose field
defaults mirror the `.get(key, default)` accesses of the code.
-/

set_option maxHeartbeats 1000000

namespace WhatsappAgent

/-- Python strings, modelled as lists of characters. -/
abbrev Str := List Char

/-- Whitespace test used by Python `str.strip` (restricted to the ASCII
whitespace characters that both Python and this model treat as space). -/
def isSpace (c : Char) : Bool :=
  decide (c = ' ' ∨ c = '\t' ∨ c = '\n' ∨ c = '\r')

/-- Python `str.lower` on a single character (ASCII range, which is the
fragment exercised by the configuration data this program handles). -/
def pyCharLower (c : Char) : Char :=
  if 65 ≤ c.toNat ∧ c.toNat ≤ 90 then Char.ofNat (c.toNat + 32) else c

/-- Python `str.lower`. -/
def pyLower (s : Str) : Str := s.map pyCharLower

/-- Python `str.strip`: drop leading and trailing whitespace. -/
def pyStrip (s : Str) : Str :=
  ((s.dropWhile isSpace).reverse.dropWhile isSpace).reverse

/-- The name normalization `name.lower().strip()` used throughout
`contact_tier_manager.py`. -/
def normName (s : Str) : Str := pyStrip (pyLower s)

/-- Characters kept by the first cleaning step of `sanitize_phone_number`
(the regex `[^\d+]` removes everything else). -/
def isPhoneChar (c : Char) : Bool := c.isDigit || c = '+'

/-- Python `str.split(sep)` for a one-character separator: `"".split(sep)`
is `[""]`, and separators at the ends produce empty parts. -/
def pySplit (sep : Char) : Str → List Str
  | [] => [[]]
  | c :: rest =>
    if c = sep then [] :: pySplit sep rest
    else
      match pySplit sep rest with
      | [] => [[c]]
      | p :: ps => (c :: p) :: ps

/-- Embedding of `helpers.sanitize_phone_number` (src/utils/helpers.py,
lines 17-47): empty input yields `""`; otherwise all characters other than
digits and `+` are removed, and when a `+` survives, the result is `+`
followed by the join of `parts[1:]` of the split on `+`. -/
def sanitize_phone_number (phone : Str) : Str :=
  if phone = [] then []
  else
    let cleaned := phone.filter isPhoneChar
    if '+' ∈ cleaned then
      '+' :: ((pySplit '+' cleaned).drop 1).flatten
    else cleaned

/-- `sanitize_phone_number` as called with an optional argument: Python
`if not phone` treats `None` exactly like the empty string. -/
def sanitize_phone_opt : Option Str → Str
  | none => []
  | some p => sanitize_phone_number p

/-- Everything after the first `+` of a string (the empty string when no
`+` occurs); used only to state the specification of phone
normalization. -/
def tailAfterPlus : Str → Str
  | [] => []
  | c :: rest => if c = '+' then rest else tailAfterPlus rest

/-- Specification of phone normalization, written from the amended claim:
when a `+` survives the character filter, the result is `+` followed by
exactly the digits of the input that occur after its first `+`, in order
(digits before the first `+` are dropped); otherwise the result is all
digits of the input in order; empty input yields the empty string. -/
def sanitizeSpec (p : Str) : Str :=
  if '+' ∈ p.filter isPhoneChar then
    '+' :: (tailAfterPlus p).filter Char.isDigit
  else p.filter Char.isDigit

/-- Python truthiness of an optional string (`if phone_number:`). -/
def truthyStr : Option Str → Bool
  | none => false
  | some [] => false
  | some (_ :: _) => true

/-- Does `n` occur at the head of `h` (`n` a prefix of `h`)? -/
def leadsWith : Str → Str → Bool
  | [], _ => true
  | _ :: _, [] => false
  | a :: n, b :: h => a = b && leadsWith n h

/-- Python `needle in hay` substring test. -/
def strContains (needle : Str) : Str → Bool
  | [] => needle = []
  | c :: rest => leadsWith needle (c :: rest) || strContains needle rest

/-- The `ContactTier` enum of `contact_tier_manager.py`. -/
inductive ContactTier where
  | MAIN_CONTACTS
  | TIME_PASS
  | NOT_IMPORTANT
  deriving DecidableEq, Repr, Fintype

/-- Position of a tier in the fixed precedence scan (0 is highest). -/
def tierIdx : ContactTier → Nat
  | .MAIN_CONTACTS => 0
  | .TIME_PASS => 1
  | .NOT_IMPORTANT => 2

/-- The string value carried by each `ContactTier` enum member. -/
def ContactTier.value : ContactTier → Str
  | .MAIN_CONTACTS => "main_contacts".toList
  | .TIME_PASS => "time_pass_contacts".toList
  | .NOT_IMPORTANT => "not_important".toList

/-- The Python enum constructor `ContactTier(name)`: `none` models the
`ValueError` raised on an unknown value string. -/
def tierOfValue (s : Str) : Option ContactTier :=
  if s = "main_contacts".toList then some .MAIN_CONTACTS
  else if s = "time_pass_contacts".toList then some .TIME_PASS
  else if s = "not_important".toList then some .NOT_IMPORTANT
  else none

/-- The `settings` JSON sub-object of a tier; `none` models an absent key,
read through `settings_data.get(key, default)`. -/
structure SettingsJson where
  open_and_read : Option Bool := none
  play_sound : Option Bool := none
  reply_mode : Option Str := none
  mark_as_read : Option Bool := none
  priority_level : Option Str := none
  deriving DecidableEq, Repr

/-- The `ContactSettings` dataclass. -/
structure ContactSettings where
  open_and_read : Bool := false
  play_sound : Bool := false
  reply_mode : Str := "none".toList
  mark_as_read : Bool := false
  priority_level : Str := "low".toList
  deriving DecidableEq, Repr

/-- One tier object of the ruleset JSON: `by_name`, `by_phone`,
`by_keywords` lists and the `settings` sub-object, each read with a
default when absent (an absent list key and an empty list are
observationally identical through `.get(key, [])`). -/
structure TierJson where
  by_name : List Str := []
  by_phone : List Str := []
  by_keywords : List Str := []
  settings : SettingsJson := {}
  deriving DecidableEq, Repr

/-- The in-memory ruleset (`self.contact_tiers`): the `contact_tiers`
object with its three schema-fixed tier keys, and
`default_settings.uncategorized_contacts` (`none` models an absent key,
read through `.get("uncategorized_contacts", "not_important")`). -/
structure RulesJson where
  main_contacts : TierJson := {}
  time_pass_contacts : TierJson := {}
  not_important : TierJson := {}
  uncategorized_contacts : Option Str := none
  deriving DecidableEq, Repr

/-- `self.contact_tiers.get("contact_tiers", {}).get(tier.value, {})`. -/
def tierData (r : RulesJson) : ContactTier → TierJson
  | .MAIN_CONTACTS => r.main_contacts
  | .TIME_PASS => r.time_pass_contacts
  | .NOT_IMPORTANT => r.not_important

/-- Writing one tier object back into the ruleset (the in-place mutation
performed through the `setdefault` chain of `add_contact_to_tier`). -/
def setTierData (r : RulesJson) : ContactTier → TierJson → RulesJson
  | .MAIN_CONTACTS, td => { r with main_contacts := td }
  | .TIME_PASS, td => { r with time_pass_contacts := td }
  | .NOT_IMPORTANT, td => { r with not_important := td }

/-- Embedding of `ContactTierManager._get_tier_settings` (lines 287-306):
each field is read with the documented default. -/
def get_tier_settings (r : RulesJson) (tier : ContactTier) : ContactSettings :=
  let sd := (tierData r tier).settings
  { open_and_read := sd.open_and_read.getD false
    play_sound := sd.play_sound.getD false
    reply_mode := sd.reply_mode.getD "none".toList
    mark_as_read := sd.mark_as_read.getD false
    priority_level := sd.priority_level.getD "low".toList }

/-- Embedding of `ContactTierManager._is_contact_in_tier` (lines 254-285):
`contact_name` and `phone_number` are the already-cleaned inputs. Stored
`by_name` entries are normalized and stored `by_phone` entries sanitized at
match time; keywords are lower-cased and matched as substrings of the
cleaned name. -/
def is_contact_in_tier (r : RulesJson) (contact_name : Str)
    (phone_number : Option Str) (tier : ContactTier) : Bool :=
  let td := tierData r tier
  if contact_name ∈ td.by_name.map normName then true
  else if truthyStr phone_number = true ∧
      phone_number.getD [] ∈ td.by_phone.map sanitize_phone_number then true
  else td.by_keywords.any (fun kw => strContains (pyLower kw) contact_name)

/-- The cleaning of the optional phone argument at the top of
`categorize_contact`: `sanitize_phone_number(phone_number) if phone_number
else None`. -/
def cleanedPhone : Option Str → Option Str
  | none => none
  | some p => if p = [] then none else some (sanitize_phone_number p)

/-- The fixed `tier_priority` scan order of `categorize_contact`. -/
def tier_priority : List ContactTier :=
  [.MAIN_CONTACTS, .TIME_PASS, .NOT_IMPORTANT]

/-- Embedding of `ContactTierManager.categorize_contact` (lines 215-252):
clean the inputs, scan the tiers in priority order and return the first
match with its settings; otherwise fall back to the configured default
tier. `none` models the `ValueError` that `ContactTier(name)` raises when
the configured default-tier string is not a tier value. -/
def categorize_contact (r : RulesJson) (contact_name : Str)
    (phone_number : Option Str) : Option (ContactTier × ContactSettings) :=
  let clean_name := normName contact_name
  let clean_phone := cleanedPhone phone_number
  match tier_priority.find? (fun t => is_contact_in_tier r clean_name clean_phone t) with
  | some tier => some (tier, get_tier_settings r tier)
  | none =>
    match tierOfValue (r.uncategorized_contacts.getD "not_important".toList) with
    | some t => some (t, get_tier_settings r t)
    | none => none

/-- The `ContactInfo` dataclass. -/
structure ContactInfo where
  name : Str
  phone : Str
  tier : ContactTier
  settings : ContactSettings
  last_interaction : Option Str := none
  deriving DecidableEq, Repr

/-- Python `dict` lookup on an association list: first binding wins (a
`dict` holds each key once, so this is exact under the unique-key
invariant that the cache maintains). -/
def dictGet {α : Type} (l : List (Str × α)) (k : Str) : Option α :=
  match l with
  | [] => none
  | (k', v) :: t => if k' = k then some v else dictGet t k

/-- Python `dict` assignment `d[k] = v`: replace the binding in place when
the key is present, otherwise append it. -/
def dictInsert {α : Type} (k : Str) (v : α) : List (Str × α) → List (Str × α)
  | [] => [(k, v)]
  | (k', v') :: t => if k' = k then (k, v) :: t else (k', v') :: dictInsert k v t

/-- Python `del d[k]` (guarded by `if k in d`): remove the binding. -/
def dictErase {α : Type} (k : Str) : List (Str × α) → List (Str × α)
  | [] => []
  | (k', v') :: t => if k' = k then t else (k', v') :: dictErase k t

/-- The per-tier template tables of `self.message_templates` (the
`templates` object of the templates JSON, keyed by the three schema-fixed
tier keys; each table maps a template name to its text). -/
structure TemplatesJson where
  main_contacts : List (Str × Str) := []
  time_pass_contacts : List (Str × Str) := []
  not_important : List (Str × Str) := []
  deriving DecidableEq, Repr

/-- `self.message_templates.get("templates", {}).get(tier.value, {})`. -/
def tierTemplates (t : TemplatesJson) : ContactTier → List (Str × Str)
  | .MAIN_CONTACTS => t.main_contacts
  | .TIME_PASS => t.time_pass_contacts
  | .NOT_IMPORTANT => t.not_important

/-- The in-memory state of a `ContactTierManager`: the loaded ruleset, the
loaded template tables and the contact-info cache (`self.contact_cache`,
a `dict` keyed by the cache-key string). -/
structure ManagerState where
  contact_tiers : RulesJson
  message_templates : TemplatesJson := {}
  contact_cache : List (Str × ContactInfo) := []
  deriving DecidableEq, Repr

/-- The cache-key expression
`f"{contact_name}:{phone_number or 'no_phone'}"` used by
`get_contact_info`, `add_contact_to_tier` and `remove_contact_from_tier`:
the raw name and the raw phone (with Python `or` falling back to
`"no_phone"` for `None` and for the empty string). -/
def cache_key (contact_name : Str) (phone_number : Option Str) : Str :=
  contact_name ++ ':' ::
    (match phone_number with
     | none => "no_phone".toList
     | some [] => "no_phone".toList
     | some (c :: p) => c :: p)

/-- Embedding of `ContactTierManager.get_contact_info` (lines 308-338):
return the cached `ContactInfo` on a cache-key hit; on a miss, categorize,
build the `ContactInfo` from the raw inputs, store it under the key and
return it together with the updated state. `none` models the `ValueError`
propagated from `categorize_contact`. -/
def get_contact_info (st : ManagerState) (contact_name : Str)
    (phone_number : Option Str) : Option (ContactInfo × ManagerState) :=
  let key := cache_key contact_name phone_number
  match dictGet st.contact_cache key with
  | some ci => some (ci, st)
  | none =>
    match categorize_contact st.contact_tiers contact_name phone_number with
    | none => none
    | some (tier, settings) =>
      let ci : ContactInfo :=
        { name := contact_name
          phone := phone_number.getD []
          tier := tier
          settings := settings }
      some (ci, { st with contact_cache := dictInsert key ci st.contact_cache })

/-- The name block of `add_contact_to_tier` (lines 433-435): append the
raw `contact_name` to `by_name` unless already present. -/
def addName (td : TierJson) (contact_name : Str) : TierJson :=
  if contact_name ∈ td.by_name then td
  else { td with by_name := td.by_name ++ [contact_name] }

/-- The phone block of `add_contact_to_tier` (lines 437-442): when the
phone argument is truthy, append its sanitized form to `by_phone` unless
already present. -/
def addPhone (td : TierJson) (phone_number : Option Str) : TierJson :=
  if truthyStr phone_number then
    let clean_phone := sanitize_phone_number (phone_number.getD [])
    if clean_phone ∈ td.by_phone then td
    else { td with by_phone := td.by_phone ++ [clean_phone] }
  else td

/-- Embedding of `ContactTierManager.add_contact_to_tier` (lines 417-455):
run the name block and the phone block on the tier's object, save (file
I/O, no in-memory effect), then delete the contact's cache key if
cached. -/
def add_contact_to_tier (st : ManagerState) (contact_name : Str)
    (phone_number : Option Str) (tier : ContactTier) : ManagerState :=
  let td := addPhone (addName (tierData st.contact_tiers tier) contact_name) phone_number
  { st with
      contact_tiers := setTierData st.contact_tiers tier td
      contact_cache := dictErase (cache_key contact_name phone_number) st.contact_cache }

/-- The final lookup line of `get_reply_template`:
`tier_templates.get(template_type) or tier_templates.get("default", "")`
(Python `or` takes the right operand when the left is `None` or the empty
string). -/
def templateFallback (tt : List (Str × Str)) (template_type : Str) : Str :=
  match dictGet tt template_type with
  | some s => if s = [] then (dictGet tt "default".toList).getD [] else s
  | none => (dictGet tt "default".toList).getD []

/-- Embedding of `ContactTierManager.get_reply_template` (lines 382-398):
resolve the contact (through the cache), pick the resolved tier's template
table and apply the `or`-fallback lookup. -/
def get_reply_template (st : ManagerState) (contact_name : Str)
    (phone_number : Option Str) (template_type : Str) :
    Option (Str × ManagerState) :=
  match get_contact_info st contact_name phone_number with
  | none => none
  | some (ci, st') =>
    some (templateFallback (tierTemplates st'.message_templates ci.tier) template_type, st')

/-- One row of the `get_tier_statistics` result. -/
structure TierStats where
  by_name : Nat
  by_phone : Nat
  total : Nat
  deriving DecidableEq, Repr

/-- The `stats` dictionary built by the loop of `get_tier_statistics`
(lines 511-520): one row per tier key of the ruleset. -/
def tierStatisticsEntries (r : RulesJson) : List (Str × TierStats) :=
  tier_priority.map fun t =>
    let td := tierData r t
    (t.value,
      { by_name := td.by_name.length
        by_phone := td.by_phone.length
        total := td.by_name.length + td.by_phone.length })

/-- Embedding of `ContactTierManager.get_tier_statistics` (lines 504-522):
the loop builds `stats`, but the next line of the function body is the
bare expression `s` — an undefined name — so evaluating the function
raises `NameError` before `return stats` is reached. -/
def get_tier_statistics (r : RulesJson) : Except Str (List (Str × TierStats)) := do
  let stats := tierStatisticsEntries r
  let _ ← (Except.error "NameError: name s is not defined".toList : Except Str Str)
  return stats

/-- The documented default ruleset written by `_load_contact_tiers`
(lines 120-165) on first run. -/
def defaultRuleset : RulesJson :=
  { main_contacts :=
      { settings :=
          { open_and_read := some true
            play_sound := some true
            reply_mode := some "informative_ai".toList
            mark_as_read := some true
            priority_level := some "high".toList } }
    time_pass_contacts :=
      { settings :=
          { open_and_read := some false
            play_sound := some false
            reply_mode := some "template_basic".toList
            mark_as_read := some true
            priority_level := some "medium".toList } }
    not_important :=
      { by_keywords := ["promotion".toList, "spam".toList, "offer".toList]
        settings :=
          { open_and_read := some false
            play_sound := some false
            reply_mode := some "none".toList
            mark_as_read := some false
            priority_level := some "low".toList } }
    uncategorized_contacts := some "not_important".toList }

/-- Entry-wise normalization of one tier's rule lists: each `by_name`
entry lower-cased and trimmed, each `by_phone` entry passed through phone
normalization; keywords and settings untouched.  Used to state that
matching normalizes stored entries at match time. -/
def normalizeTierEntries (td : TierJson) : TierJson :=
  { td with
      by_name := td.by_name.map normName
      by_phone := td.by_phone.map sanitize_phone_number }

/-- Entry-wise normalization of a whole ruleset. -/
def normalizeRulesEntries (r : RulesJson) : RulesJson :=
  { r with
      main_contacts := normalizeTierEntries r.main_contacts
      time_pass_contacts := normalizeTierEntries r.time_pass_contacts
      not_important := normalizeTierEntries r.not_important }

/-- Fixture: a ruleset listing the same normalized name under all three
tiers' `by_name` rule lists. -/
def rOverlap : RulesJson :=
  { defaultRuleset with
      main_contacts := { defaultRuleset.main_contacts with by_name := ["alice".toList] }
      time_pass_contacts := { defaultRuleset.time_pass_contacts with by_name := ["alice".toList] }
      not_important := { defaultRuleset.not_important with by_name := ["alice".toList] } }

/-- Fixture: a freshly loaded manager holding the documented default
ruleset, default templates and an empty cache. -/
def stDefault : ManagerState := { contact_tiers := defaultRuleset }

/-- Fixture: the `ContactInfo` produced by resolving `Eve` (no phone)
against the default ruleset. -/
def ciEve : ContactInfo :=
  { name := "Eve".toList
    phone := []
    tier := ContactTier.NOT_IMPORTANT
    settings := get_tier_settings defaultRuleset ContactTier.NOT_IMPORTANT }

/-- Fixture: `stDefault` after caching `Eve`. -/
def stEve : ManagerState :=
  { stDefault with contact_cache := [(cache_key "Eve".toList none, ciEve)] }

/-- Fixture: a manager whose MAIN tier template table holds an *empty*
`greeting` template next to a non-empty `default` template. -/
def stTpl : ManagerState :=
  { contact_tiers := rOverlap
    message_templates :=
      { main_contacts :=
          [("greeting".toList, []), ("default".toList, "fallback text".toList)] } }

/-- Fixture: the `ContactInfo` produced by resolving `alice` against
`rOverlap`. -/
def ciAliceTpl : ContactInfo :=
  { name := "alice".toList
    phone := []
    tier := ContactTier.MAIN_CONTACTS
    settings := get_tier_settings rOverlap ContactTier.MAIN_CONTACTS }

/-- Fixture: `stTpl` after caching `alice`. -/
def stTplAfter : ManagerState :=
  { stTpl with contact_cache := [(cache_key "alice".toList none, ciAliceTpl)] }

/-! Lemmas about the character-level normalization primitives. -/

theorem ofNat_upper_shift (n : Nat) (h1 : 65 ≤ n) (h2 : n ≤ 90) :
    (Char.ofNat (n + 32)).toNat = n + 32 := by
  interval_cases n <;> decide

theorem pyCharLower_eq_of_upper {c : Char} (h : 65 ≤ c.toNat ∧ c.toNat ≤ 90) :
    pyCharLower c = Char.ofNat (c.toNat + 32) := by
  unfold pyCharLower
  rw [if_pos h]

theorem pyCharLower_eq_of_not_upper {c : Char} (h : ¬(65 ≤ c.toNat ∧ c.toNat ≤ 90)) :
    pyCharLower c = c := by
  unfold pyCharLower
  rw [if_neg h]

theorem pyCharLower_idem (c : Char) : pyCharLower (pyCharLower c) = pyCharLower c := by
  by_cases h : 65 ≤ c.toNat ∧ c.toNat ≤ 90
  · rw [pyCharLower_eq_of_upper h]
    apply pyCharLower_eq_of_not_upper
    rw [ofNat_upper_shift c.toNat h.1 h.2]
    omega
  · rw [pyCharLower_eq_of_not_upper h, pyCharLower_eq_of_not_upper h]

theorem isSpace_ofNat_shift (n : Nat) (h1 : 65 ≤ n) (h2 : n ≤ 90) :
    isSpace (Char.ofNat (n + 32)) = false := by
  interval_cases n <;> decide

theorem isSpace_upper_false {c : Char} (h : 65 ≤ c.toNat ∧ c.toNat ≤ 90) :
    isSpace c = false := by
  apply decide_eq_false
  rintro (rfl | rfl | rfl | rfl) <;> revert h <;> decide

theorem isSpace_pyCharLower (c : Char) : isSpace (pyCharLower c) = isSpace c := by
  by_cases h : 65 ≤ c.toNat ∧ c.toNat ≤ 90
  · rw [pyCharLower_eq_of_upper h, isSpace_ofNat_shift c.toNat h.1 h.2,
      isSpace_upper_false h]
  · rw [pyCharLower_eq_of_not_upper h]

theorem pyLower_idem (s : Str) : pyLower (pyLower s) = pyLower s := by
  induction s with
  | nil => rfl
  | cons c t ih =>
    simp only [pyLower, List.map_cons, List.map_map] at *
    simp [pyCharLower_idem, ih]

theorem dropWhile_isSpace_pyLower (s : Str) :
    (s.map pyCharLower).dropWhile isSpace = (s.dropWhile isSpace).map pyCharLower := by
  induction s with
  | nil => rfl
  | cons c t ih =>
    by_cases h : isSpace c
    · simp [List.dropWhile_cons, h, isSpace_pyCharLower, ih]
    · simp [List.dropWhile_cons, h, isSpace_pyCharLower]

theorem pyLower_pyStrip_comm (s : Str) : pyLower (pyStrip s) = pyStrip (pyLower s) := by
  simp only [pyStrip, pyLower]
  rw [List.map_reverse, ← dropWhile_isSpace_pyLower, List.map_reverse,
    ← dropWhile_isSpace_pyLower]

theorem length_dropWhile_le (p : Char → Bool) (l : Str) :
    (l.dropWhile p).length ≤ l.length := by
  induction l with
  | nil => simp
  | cons c t ih =>
    by_cases h : p c
    · rw [List.dropWhile_cons_of_pos h]
      simp only [List.length_cons]
      omega
    · rw [List.dropWhile_cons_of_neg h]

theorem dropWhile_stripped_of_leading {p : Char → Bool} {l m : Str}
    (h : l.dropWhile p = l) (hpfx : m <+: l) : m.dropWhile p = m := by
  cases m with
  | nil => rfl
  | cons c t =>
    obtain ⟨rest, hrest⟩ := hpfx
    have hl : l = c :: (t ++ rest) := by rw [← hrest]; rfl
    have hc : ¬ p c = true := by
      intro hpc
      rw [hl, List.dropWhile_cons_of_pos hpc] at h
      have hlen := congrArg List.length h
      have hle := length_dropWhile_le p (t ++ rest)
      simp at hlen hle
      omega
    rw [List.dropWhile_cons_of_neg hc]

theorem pyStrip_leading (l : Str) : pyStrip l <+: l.dropWhile isSpace := by
  refine ⟨((l.dropWhile isSpace).reverse.takeWhile isSpace).reverse, ?_⟩
  simp only [pyStrip]
  rw [← List.reverse_append, List.takeWhile_append_dropWhile, List.reverse_reverse]

theorem dropWhile_pyStrip (l : Str) : (pyStrip l).dropWhile isSpace = pyStrip l :=
  dropWhile_stripped_of_leading (List.dropWhile_idempotent isSpace l) (pyStrip_leading l)

theorem pyStrip_idem (l : Str) : pyStrip (pyStrip l) = pyStrip l := by
  conv_lhs => rw [pyStrip, dropWhile_pyStrip]
  rw [pyStrip]
  rw [List.reverse_reverse, List.dropWhile_idempotent, ← pyStrip]

theorem normName_idem (s : Str) : normName (normName s) = normName s := by
  simp only [normName]
  rw [pyLower_pyStrip_comm, pyStrip_idem, pyLower_idem]

/-! Lemmas about `pySplit` and `sanitize_phone_number`. -/

theorem pySplit_ne_nil (sep : Char) (l : Str) : pySplit sep l ≠ [] := by
  cases l with
  | nil => simp [pySplit]
  | cons c rest =>
    by_cases h : c = sep
    · simp [pySplit, h]
    · simp only [pySplit, if_neg h]
      cases pySplit sep rest <;> simp

theorem flatten_pySplit (sep : Char) (l : Str) :
    (pySplit sep l).flatten = l.filter (fun c => !(c = sep : Bool)) := by
  induction l with
  | nil => simp [pySplit]
  | cons c rest ih =>
    by_cases h : c = sep
    · simp [pySplit, h, List.filter_cons, ih]
    · simp only [pySplit, if_neg h]
      rcases he : pySplit sep rest with _ | ⟨p, ps⟩
      · exact absurd he (pySplit_ne_nil sep rest)
      · rw [he] at ih
        simp only [List.flatten_cons] at ih
        simp [List.flatten_cons, List.filter_cons, h, ← ih]

theorem pySplit_no_sep (sep : Char) (l : Str) (h : sep ∉ l) : pySplit sep l = [l] := by
  induction l with
  | nil => rfl
  | cons c rest ih =>
    have hc : ¬ c = sep := fun he => h (he ▸ List.mem_cons_self c rest)
    have hr : sep ∉ rest := fun hm => h (List.mem_cons_of_mem c hm)
    simp [pySplit, hc, ih hr]

theorem flatten_drop_one (l : Str) (h : '+' ∈ l) :
    ((pySplit '+' l).drop 1).flatten =
      (tailAfterPlus l).filter (fun c => !(c = '+' : Bool)) := by
  induction l with
  | nil => cases h
  | cons c rest ih =>
    by_cases hc : c = '+'
    · subst hc
      simp only [pySplit, if_pos rfl, List.drop_succ_cons, List.drop_zero,
        tailAfterPlus, if_pos rfl]
      exact flatten_pySplit '+' rest
    · have hr : '+' ∈ rest := by
        rcases List.mem_cons.mp h with he | hm
        · exact absurd he.symm hc
        · exact hm
      simp only [pySplit, if_neg hc]
      rcases he : pySplit '+' rest with _ | ⟨p, ps⟩
      · exact absurd he (pySplit_ne_nil '+' rest)
      · have := ih hr
        rw [he] at this
        simp only [List.drop_succ_cons, List.drop_zero] at this ⊢
        rw [tailAfterPlus, if_neg hc]
        exact this

theorem mem_flatten_drop_one (l : Str) (a : Char)
    (ha : a ∈ ((pySplit '+' l).drop 1).flatten) :
    a ∈ l ∧ ¬ a = '+' := by
  rcases he : pySplit '+' l with _ | ⟨p, ps⟩
  · exact absurd he (pySplit_ne_nil '+' l)
  · rw [he] at ha
    simp only [List.drop_succ_cons, List.drop_zero] at ha
    have hmem : a ∈ (pySplit '+' l).flatten := by
      rw [he, List.flatten_cons]
      exact List.mem_append_right p ha
    rw [flatten_pySplit] at hmem
    have := List.mem_filter.mp hmem
    refine ⟨this.1, ?_⟩
    simpa using this.2

theorem sanitize_nonempty_shape (p : Str) (hp : ¬ p = [])
    (hplus : '+' ∈ p.filter isPhoneChar) :
    sanitize_phone_number p =
      '+' :: ((pySplit '+' (p.filter isPhoneChar)).drop 1).flatten := by
  rw [sanitize_phone_number, if_neg hp]
  simp only [if_pos hplus]

theorem sanitize_no_plus (p : Str) (hp : ¬ p = [])
    (hplus : '+' ∉ p.filter isPhoneChar) :
    sanitize_phone_number p = p.filter isPhoneChar := by
  rw [sanitize_phone_number, if_neg hp]
  simp only [if_neg hplus]

theorem sanitize_idem (p : Str) :
    sanitize_phone_number (sanitize_phone_number p) = sanitize_phone_number p := by
  by_cases hp : p = []
  · subst hp; rfl
  by_cases hplus : '+' ∈ p.filter isPhoneChar
  · rw [sanitize_nonempty_shape p hp hplus]
    set rest := ((pySplit '+' (p.filter isPhoneChar)).drop 1).flatten with hrest
    have hmem : ∀ a ∈ rest, a ∈ p.filter isPhoneChar ∧ ¬ a = '+' :=
      fun a ha => mem_flatten_drop_one (p.filter isPhoneChar) a ha
    have hfil : ('+' :: rest).filter isPhoneChar = '+' :: rest := by
      apply List.filter_eq_self.mpr
      intro a ha
      rcases List.mem_cons.mp ha with rfl | hm
      · decide
      · exact (List.mem_filter.mp (hmem a hm).1).2
    have hplus2 : '+' ∈ ('+' :: rest).filter isPhoneChar := by
      rw [hfil]; exact List.mem_cons_self _ _
    rw [sanitize_nonempty_shape ('+' :: rest) (by simp) hplus2, hfil]
    have hnorest : '+' ∉ rest := fun hm => (hmem '+' hm).2 rfl
    rw [show pySplit '+' ('+' :: rest) = [] :: pySplit '+' rest by
        simp [pySplit]]
    rw [pySplit_no_sep '+' rest hnorest]
    simp
  · rw [sanitize_no_plus p hp hplus]
    by_cases hnil : p.filter isPhoneChar = []
    · rw [hnil]; rfl
    · have hsub : (p.filter isPhoneChar).filter isPhoneChar = p.filter isPhoneChar := by
        apply List.filter_eq_self.mpr
        intro a ha
        exact (List.mem_filter.mp ha).2
      rw [sanitize_no_plus (p.filter isPhoneChar) hnil (by rw [hsub]; exact hplus), hsub]

theorem filter_phone_ne_plus (l : Str) :
    (l.filter isPhoneChar).filter (fun c => !(c = '+' : Bool)) = l.filter Char.isDigit := by
  rw [List.filter_filter]
  apply List.filter_congr
  intro a _
  by_cases h : a = '+'
  · subst h; decide
  · simp [isPhoneChar, h]

theorem tailAfterPlus_filter (l : Str) (q : Char → Bool) (hq : q '+' = true) :
    tailAfterPlus (l.filter q) = (tailAfterPlus l).filter q := by
  induction l with
  | nil => rfl
  | cons c rest ih =>
    by_cases hc : c = '+'
    · subst hc
      simp [List.filter_cons, hq, tailAfterPlus]
    · by_cases hqc : q c
      · simp [List.filter_cons, hqc, tailAfterPlus, hc, ih]
      · simp only [List.filter_cons, hqc]
        rw [tailAfterPlus, if_neg hc]
        simp only [Bool.false_eq_true, if_false]
        exact ih

theorem plus_mem_filter_phone (p : Str) : '+' ∈ p.filter isPhoneChar ↔ '+' ∈ p := by
  rw [List.mem_filter]
  simp [isPhoneChar]

theorem sanitize_eq_spec (p : Str) : sanitize_phone_number p = sanitizeSpec p := by
  by_cases hp : p = []
  · subst hp; rfl
  by_cases hplus : '+' ∈ p.filter isPhoneChar
  · rw [sanitize_nonempty_shape p hp hplus, sanitizeSpec, if_pos hplus]
    rw [flatten_drop_one _ hplus, tailAfterPlus_filter p isPhoneChar (by decide)]
    rw [List.filter_filter]
    congr 1
    apply List.filter_congr
    intro a _
    by_cases h : a = '+'
    · subst h; decide
    · simp [isPhoneChar, h]
  · rw [sanitize_no_plus p hp hplus, sanitizeSpec, if_neg hplus]
    apply List.filter_congr
    intro a ha
    have hne : ¬ a = '+' := fun he => hplus (he ▸ ((plus_mem_filter_phone p).mpr (he ▸ ha)))
    simp [isPhoneChar, hne]

/-! Lemmas about the association-list model of Python dictionaries. -/

theorem dictGet_dictInsert_self {α : Type} (k : Str) (v : α) (l : List (Str × α)) :
    dictGet (dictInsert k v l) k = some v := by
  induction l with
  | nil => simp [dictInsert, dictGet]
  | cons kv t ih =>
    by_cases h : kv.1 = k
    · simp [dictInsert, h, dictGet]
    · simp [dictInsert, h, dictGet, ih]

theorem dictGet_none_iff {α : Type} (k : Str) (l : List (Str × α)) :
    dictGet l k = none ↔ k ∉ l.map Prod.fst := by
  induction l with
  | nil => simp [dictGet]
  | cons kv t ih =>
    by_cases h : kv.1 = k
    · simp only [dictGet, if_pos h, List.map_cons, List.mem_cons]
      constructor
      · intro hc; exact Option.noConfusion hc
      · intro hc; exact absurd (Or.inl h.symm) hc
    · simp only [dictGet, if_neg h, List.map_cons, List.mem_cons]
      rw [ih]
      constructor
      · intro h1 hc
        rcases hc with he | hm
        · exact h he.symm
        · exact h1 hm
      · intro h2 hm
        exact h2 (Or.inr hm)

theorem dictInsert_not_mem {α : Type} (k : Str) (v : α) (l : List (Str × α))
    (h : k ∉ l.map Prod.fst) : dictInsert k v l = l ++ [(k, v)] := by
  induction l with
  | nil => rfl
  | cons kv t ih =>
    simp only [List.map_cons, List.mem_cons] at h
    push_neg at h
    simp [dictInsert, Ne.symm h.1, ih h.2]

theorem dictErase_sublist {α : Type} (k : Str) (l : List (Str × α)) :
    List.Sublist (dictErase k l) l := by
  induction l with
  | nil => exact List.Sublist.refl _
  | cons kv t ih =>
    by_cases h : kv.1 = k
    · simp only [dictErase, if_pos h]
      exact List.sublist_cons_self kv t
    · simp only [dictErase, if_neg h]
      exact List.Sublist.cons₂ kv ih

theorem dictErase_nodup {α : Type} (k : Str) (l : List (Str × α))
    (h : (l.map Prod.fst).Nodup) : ((dictErase k l).map Prod.fst).Nodup :=
  List.Nodup.sublist (List.Sublist.map Prod.fst (dictErase_sublist k l)) h

theorem dictGet_dictErase_self {α : Type} (k : Str) (l : List (Str × α))
    (h : (l.map Prod.fst).Nodup) : dictGet (dictErase k l) k = none := by
  induction l with
  | nil => rfl
  | cons kv t ih =>
    simp only [List.map_cons, List.nodup_cons] at h
    by_cases hk : kv.1 = k
    · simp only [dictErase, if_pos hk]
      rw [dictGet_none_iff]
      rw [hk] at h
      exact h.1
    · simp only [dictErase, if_neg hk, dictGet, if_neg hk]
      exact ih h.2

/-! Lemmas about tier data access and the mutation helpers. -/

theorem tierData_setTierData_self (r : RulesJson) (t : ContactTier) (td : TierJson) :
    tierData (setTierData r t td) t = td := by
  cases t <;> rfl

theorem setTierData_setTierData (r : RulesJson) (t : ContactTier) (td1 td2 : TierJson) :
    setTierData (setTierData r t td1) t td2 = setTierData r t td2 := by
  cases t <;> rfl

theorem setTierData_uncategorized (r : RulesJson) (t : ContactTier) (td : TierJson) :
    (setTierData r t td).uncategorized_contacts = r.uncategorized_contacts := by
  cases t <;> rfl

theorem addName_by_name_mem (td : TierJson) (n : Str) : n ∈ (addName td n).by_name := by
  rw [addName]
  by_cases h : n ∈ td.by_name
  · rw [if_pos h]; exact h
  · rw [if_neg h]
    exact List.mem_append_right td.by_name (List.mem_singleton.mpr rfl)

theorem addName_of_mem (td : TierJson) (n : Str) (h : n ∈ td.by_name) :
    addName td n = td := by
  rw [addName, if_pos h]

theorem addPhone_by_name (td : TierJson) (p : Option Str) :
    (addPhone td p).by_name = td.by_name := by
  rw [addPhone]
  by_cases h : truthyStr p
  · simp only [if_pos h]
    split <;> rfl
  · rw [if_neg h]

theorem addPhone_by_keywords (td : TierJson) (p : Option Str) :
    (addPhone td p).by_keywords = td.by_keywords := by
  rw [addPhone]
  by_cases h : truthyStr p
  · simp only [if_pos h]
    split <;> rfl
  · rw [if_neg h]

theorem addPhone_settings (td : TierJson) (p : Option Str) :
    (addPhone td p).settings = td.settings := by
  rw [addPhone]
  by_cases h : truthyStr p
  · simp only [if_pos h]
    split <;> rfl
  · rw [if_neg h]

theorem addName_by_phone (td : TierJson) (n : Str) :
    (addName td n).by_phone = td.by_phone := by
  rw [addName]
  split <;> rfl

theorem addName_by_keywords (td : TierJson) (n : Str) :
    (addName td n).by_keywords = td.by_keywords := by
  rw [addName]
  split <;> rfl

theorem addName_settings (td : TierJson) (n : Str) :
    (addName td n).settings = td.settings := by
  rw [addName]
  split <;> rfl

theorem addPhone_by_phone_mem (td : TierJson) (p : Option Str) (h : truthyStr p = true) :
    sanitize_phone_number (p.getD []) ∈ (addPhone td p).by_phone := by
  rw [addPhone, if_pos h]
  by_cases hm : sanitize_phone_number (p.getD []) ∈ td.by_phone
  · simp only [if_pos hm]; exact hm
  · simp only [if_neg hm]
    exact List.mem_append_right td.by_phone (List.mem_singleton.mpr rfl)

theorem addPhone_of_mem (td : TierJson) (p : Option Str)
    (h : truthyStr p = true → sanitize_phone_number (p.getD []) ∈ td.by_phone) :
    addPhone td p = td := by
  rw [addPhone]
  by_cases ht : truthyStr p
  · simp only [if_pos ht, if_pos (h ht)]
  · rw [if_neg ht]

theorem addPhone_not_truthy (td : TierJson) (p : Option Str) (h : truthyStr p = false) :
    addPhone td p = td := by
  rw [addPhone, h]
  rfl

/-! Lemmas about tier matching and resolution. -/

theorem is_in_tier_of_name (r : RulesJson) (n : Str) (ph : Option Str) (t : ContactTier)
    (h : n ∈ (tierData r t).by_name.map normName) :
    is_contact_in_tier r n ph t = true := by
  simp only [is_contact_in_tier]
  rw [if_pos h]

theorem map_normName_idem (l : List Str) :
    (l.map normName).map normName = l.map normName := by
  induction l with
  | nil => rfl
  | cons a t ih => simp [normName_idem, ih]

theorem map_sanitize_idem (l : List Str) :
    (l.map sanitize_phone_number).map sanitize_phone_number =
      l.map sanitize_phone_number := by
  induction l with
  | nil => rfl
  | cons a t ih => simp [sanitize_idem, ih]

theorem tierData_normalize (r : RulesJson) (t : ContactTier) :
    tierData (normalizeRulesEntries r) t = normalizeTierEntries (tierData r t) := by
  cases t <;> rfl

theorem is_contact_in_tier_normalize (r : RulesJson) (n : Str) (ph : Option Str)
    (t : ContactTier) :
    is_contact_in_tier (normalizeRulesEntries r) n ph t = is_contact_in_tier r n ph t := by
  simp only [is_contact_in_tier, tierData_normalize, normalizeTierEntries]
  rw [map_normName_idem, map_sanitize_idem]

theorem get_tier_settings_normalize (r : RulesJson) (t : ContactTier) :
    get_tier_settings (normalizeRulesEntries r) t = get_tier_settings r t := by
  simp only [get_tier_settings, tierData_normalize, normalizeTierEntries]

/-- C10: tier matching normalizes the stored rule entries at match time
(stored `by_name` entries are lower-cased and trimmed, stored `by_phone`
entries pass through phone normalization before comparison), so resolution
on any ruleset agrees with resolution on the ruleset whose `by_name` and
`by_phone` entries have been replaced by their normalized forms. -/
theorem categorize_contact_normalized_entries (r : RulesJson) (contact_name : Str)
    (phone_number : Option Str) :
    categorize_contact (normalizeRulesEntries r) contact_name phone_number =
      categorize_contact r contact_name phone_number := by
  simp only [categorize_contact, tier_priority, is_contact_in_tier_normalize,
    get_tier_settings_normalize]
  rfl

/-- C1: a contact whose normalized name is listed in the MAIN tier's
`by_name` set always resolves to MAIN with MAIN's settings, whatever the
other tiers list: MAIN is scanned first and the first match wins. -/
theorem main_by_name_wins (r : RulesJson) (contact_name : Str)
    (phone_number : Option Str)
    (h : normName contact_name ∈ r.main_contacts.by_name.map normName) :
    categorize_contact r contact_name phone_number =
      some (ContactTier.MAIN_CONTACTS, get_tier_settings r ContactTier.MAIN_CONTACTS) := by
  have hm : is_contact_in_tier r (normName contact_name) (cleanedPhone phone_number)
      ContactTier.MAIN_CONTACTS = true :=
    is_in_tier_of_name r _ _ ContactTier.MAIN_CONTACTS h
  simp only [categorize_contact, tier_priority]
  rw [List.find?_cons_of_pos _ hm]

/-- Witness for C1: `alice` is listed under all three tiers' `by_name`
lists in `rOverlap`, and resolution of `Alice` still returns MAIN. -/
theorem main_by_name_wins_witness :
    normName "Alice".toList ∈ rOverlap.main_contacts.by_name.map normName ∧
    categorize_contact rOverlap "Alice".toList none =
      some (ContactTier.MAIN_CONTACTS, get_tier_settings rOverlap ContactTier.MAIN_CONTACTS) :=
  ⟨by decide, main_by_name_wins rOverlap "Alice".toList none (by decide)⟩

/-- C2: a contact matching no tier rule resolves to the tier configured
under `default_settings.uncategorized_contacts`, with that tier's
settings. -/
theorem uncategorized_gets_default_tier (r : RulesJson) (contact_name : Str)
    (phone_number : Option Str) (t0 : ContactTier)
    (hno : ∀ t, is_contact_in_tier r (normName contact_name)
      (cleanedPhone phone_number) t = false)
    (hdef : tierOfValue (r.uncategorized_contacts.getD "not_important".toList) = some t0) :
    categorize_contact r contact_name phone_number =
      some (t0, get_tier_settings r t0) := by
  simp only [categorize_contact, tier_priority]
  rw [List.find?_cons_of_neg _ (by simp [hno ContactTier.MAIN_CONTACTS]),
    List.find?_cons_of_neg _ (by simp [hno ContactTier.TIME_PASS]),
    List.find?_cons_of_neg _ (by simp [hno ContactTier.NOT_IMPORTANT]),
    List.find?_nil, hdef]

/-- Witness for C2: on the documented default ruleset, `bob` matches no
rule and resolves to the configured default tier NOT_IMPORTANT. -/
theorem uncategorized_gets_default_tier_witness :
    (∀ t, is_contact_in_tier defaultRuleset (normName "bob".toList)
      (cleanedPhone none) t = false) ∧
    categorize_contact defaultRuleset "bob".toList none =
      some (ContactTier.NOT_IMPORTANT, get_tier_settings defaultRuleset ContactTier.NOT_IMPORTANT) :=
  ⟨by decide, uncategorized_gets_default_tier defaultRuleset "bob".toList none
    ContactTier.NOT_IMPORTANT (by decide) (by decide)⟩

/-- C4 counterexample: the claim says every digit of the input is
preserved in order, but on `"12+34"` the digits `1` and `2` (which
precede the mid-string `+`) are dropped: the code keeps only the digits
after the first `+`. -/
theorem sanitize_drops_digits_before_plus :
    sanitize_phone_number "12+34".toList = "+34".toList ∧
    '1' ∈ "12+34".toList ∧ Char.isDigit '1' = true ∧
    '1' ∉ sanitize_phone_number "12+34".toList := by decide

/-- C4 (amended): phone normalization strips every character except digits
and `+`; when a `+` survives the filter, the result is a single `+`
prepended to exactly the digits that occur after the input's first `+`,
in order (digits before the first `+` are dropped); with no `+` it is all
digits of the input in order; empty or `None` input yields the empty
string. -/
theorem sanitize_phone_number_characterization (p : Str) :
    sanitize_phone_number p = sanitizeSpec p ∧ sanitize_phone_opt none = [] :=
  ⟨sanitize_eq_spec p, rfl⟩

/-- C5: running `add_contact_to_tier` twice with the same arguments
produces the same ruleset as running it once. -/
theorem add_contact_to_tier_idem (st : ManagerState) (n : Str) (p : Option Str)
    (t : ContactTier) :
    (add_contact_to_tier (add_contact_to_tier st n p t) n p t).contact_tiers =
      (add_contact_to_tier st n p t).contact_tiers := by
  simp only [add_contact_to_tier]
  rw [tierData_setTierData_self]
  set td1 := addPhone (addName (tierData st.contact_tiers t) n) p with htd1
  have hname : n ∈ td1.by_name := by
    rw [htd1, addPhone_by_name]
    exact addName_by_name_mem _ n
  rw [addName_of_mem td1 n hname]
  have hphone : addPhone td1 p = td1 := by
    apply addPhone_of_mem
    intro ht
    rw [htd1]
    exact addPhone_by_phone_mem _ p ht
  rw [hphone, setTierData_setTierData]

/-- C6 counterexample: the claim says the entry inserted into `by_name`
is the normalized (lower-cased, trimmed) name, but the code appends the
raw name: adding `"Alice "` stores `"Alice "` itself, which differs from
its normalization `"alice"`. -/
theorem add_contact_stores_raw_name_cex :
    (tierData (add_contact_to_tier ({ contact_tiers := {} } : ManagerState)
        "Alice ".toList none ContactTier.MAIN_CONTACTS).contact_tiers
      ContactTier.MAIN_CONTACTS).by_name = ["Alice ".toList] ∧
    normName "Alice ".toList ≠ "Alice ".toList := by decide

/-- C6 (amended): `add_contact_to_tier` stores the name as given (raw, no
normalization) with set semantics (its multiplicity in `by_name` becomes
`max` of the old multiplicity and 1, so no duplicate is created), and,
only when a truthy phone is supplied, stores the normalized phone in
`by_phone`, likewise with set semantics; a falsy phone leaves `by_phone`
unchanged. -/
theorem add_contact_set_semantics (st : ManagerState) (n : Str) (p : Option Str)
    (t : ContactTier) :
    n ∈ (tierData (add_contact_to_tier st n p t).contact_tiers t).by_name ∧
    (tierData (add_contact_to_tier st n p t).contact_tiers t).by_name.count n =
      max ((tierData st.contact_tiers t).by_name.count n) 1 ∧
    (truthyStr p = true →
      sanitize_phone_number (p.getD []) ∈
        (tierData (add_contact_to_tier st n p t).contact_tiers t).by_phone ∧
      (tierData (add_contact_to_tier st n p t).contact_tiers t).by_phone.count
          (sanitize_phone_number (p.getD [])) =
        max ((tierData st.contact_tiers t).by_phone.count
          (sanitize_phone_number (p.getD []))) 1) ∧
    (truthyStr p = false →
      (tierData (add_contact_to_tier st n p t).contact_tiers t).by_phone =
        (tierData st.contact_tiers t).by_phone) := by
  simp only [add_contact_to_tier]
  rw [tierData_setTierData_self]
  set td := tierData st.contact_tiers t with htd
  refine ⟨?_, ?_, ?_, ?_⟩
  · rw [addPhone_by_name]
    exact addName_by_name_mem td n
  · rw [addPhone_by_name]
    by_cases h : n ∈ td.by_name
    · rw [addName_of_mem td n h]
      have hc : 0 < td.by_name.count n := List.count_pos_iff.mpr h
      omega
    · rw [addName, if_neg h]
      simp only [List.count_append, List.count_singleton_self]
      rw [List.count_eq_zero.mpr h]
      omega
  · intro ht
    constructor
    · exact addPhone_by_phone_mem _ p ht
    · by_cases hm : sanitize_phone_number (p.getD []) ∈ (addName td n).by_phone
      · rw [addPhone_of_mem _ p (fun _ => hm), addName_by_phone]
        rw [addName_by_phone] at hm
        have hc : 0 < td.by_phone.count (sanitize_phone_number (p.getD [])) :=
          List.count_pos_iff.mpr hm
        omega
      · simp only [addPhone, if_pos ht, if_neg hm]
        simp only [List.count_append, List.count_singleton_self]
        rw [addName_by_phone] at hm
        rw [addName_by_phone, List.count_eq_zero.mpr hm]
        omega
  · intro ht
    rw [addPhone_not_truthy _ p ht, addName_by_phone]

/-- Witness for C6 (amended), exercising the truthy-phone branch on the
default ruleset: both insertions are observable after one call. -/
theorem add_contact_set_semantics_witness :
    truthyStr (some "+1 555-0100".toList) = true ∧
    "Bob".toList ∈ (tierData (add_contact_to_tier stDefault "Bob".toList
      (some "+1 555-0100".toList) ContactTier.TIME_PASS).contact_tiers
        ContactTier.TIME_PASS).by_name ∧
    sanitize_phone_number "+1 555-0100".toList ∈
      (tierData (add_contact_to_tier stDefault "Bob".toList
        (some "+1 555-0100".toList) ContactTier.TIME_PASS).contact_tiers
          ContactTier.TIME_PASS).by_phone := by
  refine ⟨by decide, ?_, ?_⟩
  · exact (add_contact_set_semantics stDefault "Bob".toList
      (some "+1 555-0100".toList) ContactTier.TIME_PASS).1
  · exact ((add_contact_set_semantics stDefault "Bob".toList
      (some "+1 555-0100".toList) ContactTier.TIME_PASS).2.2.1 (by decide)).1

/-- C8: `get_tier_statistics` never returns its statistics mapping: the
stray expression statement `s` on the line before `return stats` names an
undefined variable, so every call raises `NameError` (contradicting the
function's own docstring, which promises a per-tier count dictionary). -/
theorem get_tier_statistics_raises (r : RulesJson) :
    get_tier_statistics r =
      Except.error "NameError: name s is not defined".toList := rfl

/-- C3 counterexample: the claim says the next query after `add_contact`
returns the new tier, but precedence overrides it: with `alice` listed in
MAIN's `by_name`, adding `alice` to NOT_IMPORTANT and querying again
returns MAIN, not the tier just added to. -/
theorem add_contact_then_query_cex :
    (get_contact_info (add_contact_to_tier ({ contact_tiers := rOverlap } : ManagerState)
        "alice".toList none ContactTier.NOT_IMPORTANT) "alice".toList none).map
      (fun x => x.1.tier) = some ContactTier.MAIN_CONTACTS ∧
    ContactTier.MAIN_CONTACTS ≠ ContactTier.NOT_IMPORTANT := by decide

/-- C3 (amended): `add_contact_to_tier` invalidates the contact's cache
entry, so the next query re-categorizes against the updated ruleset (no
stale hit) and returns the tier the contact was added to, whenever no
higher-precedence tier also matches the contact (when one does, that tier
wins by the precedence invariant). -/
theorem add_contact_then_query (st : ManagerState) (n : Str) (p : Option Str)
    (t : ContactTier)
    (hnd : (st.contact_cache.map Prod.fst).Nodup)
    (hhi : ∀ t', tierIdx t' < tierIdx t →
      is_contact_in_tier (add_contact_to_tier st n p t).contact_tiers (normName n)
        (cleanedPhone p) t' = false) :
    (get_contact_info (add_contact_to_tier st n p t) n p).map (fun x => x.1.tier) =
      some t := by
  have hcache : dictGet (add_contact_to_tier st n p t).contact_cache
      (cache_key n p) = none := by
    have he : (add_contact_to_tier st n p t).contact_cache =
        dictErase (cache_key n p) st.contact_cache := rfl
    rw [he]
    exact dictGet_dictErase_self _ _ hnd
  have hmatch : is_contact_in_tier (add_contact_to_tier st n p t).contact_tiers
      (normName n) (cleanedPhone p) t = true := by
    apply is_in_tier_of_name
    apply List.mem_map_of_mem
    show n ∈ (tierData (add_contact_to_tier st n p t).contact_tiers t).by_name
    have he : tierData (add_contact_to_tier st n p t).contact_tiers t =
        addPhone (addName (tierData st.contact_tiers t) n) p := by
      simp only [add_contact_to_tier]
      rw [tierData_setTierData_self]
    rw [he, addPhone_by_name]
    exact addName_by_name_mem _ n
  have hcat : categorize_contact (add_contact_to_tier st n p t).contact_tiers n p =
      some (t, get_tier_settings (add_contact_to_tier st n p t).contact_tiers t) := by
    simp only [categorize_contact, tier_priority]
    cases t with
    | MAIN_CONTACTS => rw [List.find?_cons_of_pos _ hmatch]
    | TIME_PASS =>
      rw [List.find?_cons_of_neg _
          (by simp [hhi ContactTier.MAIN_CONTACTS (by decide)]),
        List.find?_cons_of_pos _ hmatch]
    | NOT_IMPORTANT =>
      rw [List.find?_cons_of_neg _
          (by simp [hhi ContactTier.MAIN_CONTACTS (by decide)]),
        List.find?_cons_of_neg _
          (by simp [hhi ContactTier.TIME_PASS (by decide)]),
        List.find?_cons_of_pos _ hmatch]
  simp only [get_contact_info, hcache, hcat]
  rfl

/-- Witness for C3 (amended): adding `Carol` to TIME_PASS on a fresh
default manager and querying again returns TIME_PASS. -/
theorem add_contact_then_query_witness :
    (stDefault.contact_cache.map Prod.fst).Nodup ∧
    (get_contact_info (add_contact_to_tier stDefault "Carol".toList none
        ContactTier.TIME_PASS) "Carol".toList none).map (fun x => x.1.tier) =
      some ContactTier.TIME_PASS :=
  ⟨by decide, add_contact_then_query stDefault "Carol".toList none
    ContactTier.TIME_PASS (by decide) (by decide)⟩

/-- C7 counterexample: cache keys are built from the *raw* name and
phone, not the normalized ones: querying `Alice` and then `alice` (the
same normalized identity) leaves two distinct cache entries, and the
first entry's key differs from the normalized key the claim
describes. -/
theorem cache_raw_keys_cex :
    ((get_contact_info stDefault "Alice".toList none).bind
      (fun x => get_contact_info x.2 "alice".toList none)).map
        (fun x => x.2.contact_cache.map Prod.fst) =
      some ["Alice:no_phone".toList, "alice:no_phone".toList] ∧
    normName "Alice".toList = normName "alice".toList ∧
    "Alice:no_phone".toList ≠ normName "Alice".toList ++ ":no_phone".toList := by
  decide

/-- C7 (amended): the cache is keyed by the raw
`contact_name + ":" + (raw phone | "no_phone")` string, and it holds at
most one `ContactInfo` per such raw key: a successful query leaves its
result under its key, keeps the keys duplicate-free, and an immediately
repeated query with the same raw identity is a pure cache hit returning
the same entry with no state change. -/
theorem cache_one_entry_per_raw_key (st : ManagerState) (n : Str) (p : Option Str)
    (ci : ContactInfo) (st' : ManagerState)
    (hnd : (st.contact_cache.map Prod.fst).Nodup)
    (h : get_contact_info st n p = some (ci, st')) :
    dictGet st'.contact_cache (cache_key n p) = some ci ∧
    (st'.contact_cache.map Prod.fst).Nodup ∧
    get_contact_info st' n p = some (ci, st') := by
  rcases hg : dictGet st.contact_cache (cache_key n p) with _ | ci0
  · simp only [get_contact_info, hg] at h
    rcases hc : categorize_contact st.contact_tiers n p with _ | ts
    · rw [hc] at h
      exact Option.noConfusion h
    · obtain ⟨t0, s0⟩ := ts
      rw [hc] at h
      simp only [Option.some.injEq, Prod.mk.injEq] at h
      obtain ⟨hci, hst⟩ := h
      subst hci
      subst hst
      have hnotmem : cache_key n p ∉ st.contact_cache.map Prod.fst :=
        (dictGet_none_iff _ _).mp hg
      refine ⟨dictGet_dictInsert_self _ _ _, ?_, ?_⟩
      · rw [dictInsert_not_mem _ _ _ hnotmem]
        simp only [List.map_append, List.map_cons, List.map_nil]
        rw [List.nodup_append]
        exact ⟨hnd, List.nodup_singleton _,
          fun a ha hk => hnotmem (List.mem_singleton.mp hk ▸ ha)⟩
      · simp only [get_contact_info, dictGet_dictInsert_self]
  · simp only [get_contact_info, hg] at h
    simp only [Option.some.injEq, Prod.mk.injEq] at h
    obtain ⟨hci, hst⟩ := h
    subst hci
    subst hst
    exact ⟨hg, hnd, by simp only [get_contact_info, hg]⟩

/-- Witness for C7 (amended): querying `Eve` on a fresh default manager
caches one entry under the raw key, and the repeated query is a pure
hit. -/
theorem cache_one_entry_per_raw_key_witness :
    dictGet stEve.contact_cache (cache_key "Eve".toList none) = some ciEve ∧
    (stEve.contact_cache.map Prod.fst).Nodup ∧
    get_contact_info stEve "Eve".toList none = some (ciEve, stEve) :=
  cache_one_entry_per_raw_key stDefault "Eve".toList none ciEve stEve
    (by decide) (by decide)

theorem get_contact_info_templates (st : ManagerState) (n : Str) (p : Option Str)
    (ci : ContactInfo) (st' : ManagerState)
    (h : get_contact_info st n p = some (ci, st')) :
    st'.message_templates = st.message_templates := by
  rcases hg : dictGet st.contact_cache (cache_key n p) with _ | ci0
  · simp only [get_contact_info, hg] at h
    rcases hc : categorize_contact st.contact_tiers n p with _ | ts
    · rw [hc] at h
      exact Option.noConfusion h
    · obtain ⟨t0, s0⟩ := ts
      rw [hc] at h
      simp only [Option.some.injEq, Prod.mk.injEq] at h
      rw [← h.2]
  · simp only [get_contact_info, hg] at h
    simp only [Option.some.injEq, Prod.mk.injEq] at h
    rw [← h.2]

/-- C9 counterexample: the claim says the lookup returns the named
template whenever it is present for the resolved tier, but Python's
`or`-fallback also triggers on a present-but-empty template: `alice`
resolves to MAIN, whose table holds `greeting = ""`, yet the lookup
returns the `default` text instead of the present named template. -/
theorem get_reply_template_empty_named_cex :
    (get_reply_template stTpl "alice".toList none "greeting".toList).map
      (fun x => x.1) = some "fallback text".toList ∧
    dictGet (tierTemplates stTpl.message_templates ContactTier.MAIN_CONTACTS)
      "greeting".toList = some [] ∧
    "fallback text".toList ≠ ([] : Str) := by decide

/-- C9 (amended): once the contact resolves, `get_reply_template` always
returns a string (never fails): the named template when it is present
*and non-empty* for the resolved tier; otherwise (absent or empty) that
tier's `default` template, or the empty string when that too is
absent. -/
theorem get_reply_template_behavior (st : ManagerState) (n : Str) (p : Option Str)
    (ttype : Str) (ci : ContactInfo) (st' : ManagerState)
    (h : get_contact_info st n p = some (ci, st')) :
    get_reply_template st n p ttype =
      some (templateFallback (tierTemplates st.message_templates ci.tier) ttype, st') ∧
    (∀ s : Str, dictGet (tierTemplates st.message_templates ci.tier) ttype = some s →
      s ≠ [] →
      templateFallback (tierTemplates st.message_templates ci.tier) ttype = s) ∧
    (dictGet (tierTemplates st.message_templates ci.tier) ttype = none →
      templateFallback (tierTemplates st.message_templates ci.tier) ttype =
        (dictGet (tierTemplates st.message_templates ci.tier) "default".toList).getD []) ∧
    (dictGet (tierTemplates st.message_templates ci.tier) ttype = some [] →
      templateFallback (tierTemplates st.message_templates ci.tier) ttype =
        (dictGet (tierTemplates st.message_templates ci.tier) "default".toList).getD []) := by
  refine ⟨?_, ?_, ?_, ?_⟩
  · simp only [get_reply_template, h]
    rw [get_contact_info_templates st n p ci st' h]
  · intro s hs hne
    simp only [templateFallback, hs]
    rw [if_neg hne]
  · intro hd
    simp only [templateFallback, hd]
  · intro hd
    simp only [templateFallback, hd, if_pos]

/-- Witness for C9 (amended): looking up the present, non-empty `default`
template for `alice` on `stTpl` returns its text. -/
theorem get_reply_template_behavior_witness :
    (get_reply_template stTpl "alice".toList none "default".toList).map
      (fun x => x.1) = some "fallback text".toList := by
  have h := get_reply_template_behavior stTpl "alice".toList none "default".toList
    ciAliceTpl stTplAfter (by decide)
  rw [h.1]
  decide

end WhatsappAgent
